import Mathlib

/-!
Shallow embedding of `lambda/apigw-handler/index.py` from the
`apigw-http-api-lambda-dynamodb-python-cdk` pattern: a Lambda dispatcher that
routes `GET /health` and `POST /`, writes records to DynamoDB, and emits
Powertools metrics.  External collaborators (the JSON parser, `uuid.uuid4`,
the DynamoDB client, the clock and `os.environ`) are supplied through an
environment record; the handlers themselves are translated line by line.
-/

namespace ApigwHandler

/-- Python values produced by `json.loads`.  JSON numbers are modelled as
rationals (ints and floats collapsed); CPython string-escaping details in
`repr` are not modelled. -/
inductive Json where
  | null
  | bool (b : Bool)
  | num (q : ℚ)
  | str (s : String)
  | arr (elems : List Json)
  | obj (fields : List (String × Json))

mutual

/-- Python's `repr` on values arising from `json.loads` (containers print via
`repr` of their elements, strings in single quotes). -/
def pyRepr : Json → String
  | .null => "None"
  | .bool true => "True"
  | .bool false => "False"
  | .num q => toString q
  | .str s => "'" ++ s ++ "'"
  | .arr [] => "[]"
  | .arr (x :: xs) => "[" ++ pyRepr x ++ pyReprArrRest xs ++ "]"
  | .obj [] => "\x7b\x7d"
  | .obj ((k, v) :: kvs) =>
      "\x7b'" ++ k ++ "': " ++ pyRepr v ++ pyReprObjRest kvs ++ "\x7d"

/-- The `repr` of the remaining list elements, each preceded by ", ". -/
def pyReprArrRest : List Json → String
  | [] => ""
  | x :: xs => ", " ++ pyRepr x ++ pyReprArrRest xs

/-- The `repr` of the remaining dict entries, each preceded by ", ". -/
def pyReprObjRest : List (String × Json) → String
  | [] => ""
  | (k, v) :: kvs => ", '" ++ k ++ "': " ++ pyRepr v ++ pyReprObjRest kvs

end

/-- Python's `str`: the identity on strings, `repr` otherwise. -/
def pyStr : Json → String
  | .str s => s
  | v => pyRepr v

/-- The exceptions that can arise in `handle_post_request`'s `try` block. -/
inductive PyExc where
  | keyError (key : String)
  | typeError (msg : String)
  | jsonDecodeError (msg : String)
  | clientError (msg : String)
deriving DecidableEq

/-- Python's `str(e)` for a caught exception; `str` of a `KeyError` is the `repr` of
the missing key, i.e. the key wrapped in single quotes. -/
def PyExc.toStr : PyExc → String
  | .keyError k => "'" ++ k ++ "'"
  | .typeError m => m
  | .jsonDecodeError m => m
  | .clientError m => m

/-- Dict lookup as built by `json.loads`: a duplicated key keeps its last
occurrence. -/
def pyDictGet (kvs : List (String × Json)) (k : String) : Option Json :=
  kvs.reverse.lookup k

/-- Subscripting `item[k]`: dict lookup raising `KeyError`, a `TypeError` on any
non-dict value. -/
def pySubscript (v : Json) (k : String) : Except PyExc Json :=
  match v with
  | .obj kvs =>
      match pyDictGet kvs k with
      | some x => .ok x
      | none => .error (.keyError k)
  | .str _ => .error (.typeError "string indices must be integers")
  | .arr _ => .error (.typeError "list indices must be integers")
  | _ => .error (.typeError "object is not subscriptable")

/-- The API Gateway event: `event.get("httpMethod", "")`,
`event.get("path", "/")` and `event.get("body")` are the only keys read. -/
structure Event where
  httpMethod : Option String
  path : Option String
  body : Option String
deriving DecidableEq

/-- The Lambda context; only `aws_request_id` is read (for the 500 body). -/
structure LambdaContext where
  aws_request_id : String
deriving DecidableEq

/-- The environment a single invocation runs against: configuration, the
stdlib JSON parser, the freshly drawn `uuid.uuid4()` string, the DynamoDB
client's outcomes, and the clock/timestamp readings.  Errors carry the
`str(e)` of the exception the collaborator raised. -/
structure Env where
  tableName : Option String
  jsonLoads : String → Except String Json
  freshUuid : String
  putItemResult : Except String Unit
  describeTableResult : Except String Unit
  describeLatencyMs : ℚ
  timestamp : String

/-- A response dict; `body` is the Json value handed to `json.dumps`. -/
structure Response where
  statusCode : Nat
  headers : List (String × String)
  body : Json

/-- The header map every response literal in `index.py` carries. -/
def jsonHeaders : List (String × String) := [("Content-Type", "application/json")]

/-- Units of the Powertools metrics used by the handler. -/
inductive MUnit where
  | count
  | milliseconds
deriving DecidableEq

/-- One `metrics.add_metric` call (dimension/value arguments elided: counter
values are the constant 1, latency values wall-clock readings). -/
structure Metric where
  name : String
  unit : MUnit
deriving DecidableEq

/-- A DynamoDB client call issued during the invocation.  `putItem` records
the attribute strings of the Item map (`year` as type N, `title` and `id`
as type S). -/
inductive DbOp where
  | putItem (table : Option String) (year title id : String)
  | describeTable (table : Option String)
deriving DecidableEq

/-- Result of running a handler: its response plus the traces of metric
emissions and DynamoDB calls, in program order. -/
structure HandlerOut where
  response : Response
  metrics : List Metric
  dbOps : List DbOp

/-- The test `if event.get("body"):` — the body string when it is present and
non-empty (truthy), `none` otherwise. -/
def truthyBody (ev : Event) : Option String :=
  match ev.body with
  | some s => if s = "" then none else some s
  | none => none

/-- Function `write_to_dynamodb` (index.py:205-246): calls `put_item`, emits a
`DynamoDBLatency` metric on success, re-raises the client's exception on
failure. -/
def write_to_dynamodb (env : Env) (year title id : String) :
    Except PyExc Unit × List Metric × List DbOp :=
  match env.putItemResult with
  | .ok _ =>
      (.ok (), [⟨"DynamoDBLatency", .milliseconds⟩], [.putItem env.tableName year title id])
  | .error msg =>
      (.error (.clientError msg), [], [.putItem env.tableName year title id])

/-- The `try` block of `handle_post_request` up to the record to write: parse
the truthy body and read `year`, `title`, `id` in that order (any of
`json.JSONDecodeError`, `KeyError`, `TypeError` escapes as the exception),
or substitute the defaults when the body is absent or empty. -/
def postRecord (ev : Event) (env : Env) : Except PyExc (String × String × String) :=
  match truthyBody ev with
  | some s =>
      match env.jsonLoads s with
      | .error m => .error (.jsonDecodeError m)
      | .ok item =>
          match pySubscript item "year" with
          | .error e => .error e
          | .ok year =>
              match pySubscript item "title" with
              | .error e => .error e
              | .ok title =>
                  match pySubscript item "id" with
                  | .error e => .error e
                  | .ok id => .ok (pyStr year, pyStr title, pyStr id)
  | none => .ok ("2012", "The Amazing Spider-Man 2", env.freshUuid)

/-- The `except` clauses of `handle_post_request` (index.py:134-154), in
source order: `JSONDecodeError` → 400 invalid JSON, `KeyError e` → 400 with
`f"Missing required field: {str(e)}"`, anything else → 500. -/
def postErrorResponse (e : PyExc) : Response :=
  match e with
  | .jsonDecodeError _ =>
      ⟨400, jsonHeaders, .obj [("message", .str "Invalid JSON in request body")]⟩
  | .keyError k =>
      ⟨400, jsonHeaders,
        .obj [("message", .str ("Missing required field: " ++ PyExc.toStr (.keyError k)))]⟩
  | _ => ⟨500, jsonHeaders, .obj [("message", .str "Database operation failed")]⟩

/-- Function `handle_post_request` (index.py:100-154). -/
def handle_post_request (ev : Event) (env : Env) : HandlerOut :=
  match postRecord ev env with
  | .error e => ⟨postErrorResponse e, [], []⟩
  | .ok (year, title, id) =>
      match write_to_dynamodb env year title id with
      | (.ok _, ms, ops) =>
          ⟨⟨200, jsonHeaders, .obj [("message", .str "Successfully inserted data!")]⟩, ms, ops⟩
      | (.error e, ms, ops) => ⟨postErrorResponse e, ms, ops⟩

/-- Python's `round(x, 2)` on the rational model of the float: round half to even at
the second decimal (binary-float representation error is not modelled). -/
def pyRound2 (q : ℚ) : ℚ :=
  let scaled := q * 100
  let n := ⌊scaled⌋
  let frac := scaled - (n : ℚ)
  let r : ℤ :=
    if frac < 1 / 2 then n
    else if 1 / 2 < frac then n + 1
    else if n % 2 = 0 then n else n + 1
  (r : ℚ) / 100

/-- Function `check_dynamodb_health` (index.py:249-261): `(is_healthy, latency_ms,
error_msg)` plus the `describe_table` call it issued. -/
def check_dynamodb_health (env : Env) : (Bool × ℚ × Option String) × List DbOp :=
  match env.describeTableResult with
  | .ok _ => ((true, env.describeLatencyMs, none), [.describeTable env.tableName])
  | .error msg => ((false, env.describeLatencyMs, some msg), [.describeTable env.tableName])

/-- The value `os.environ.get("TABLE_NAME")` as a Json value inside a dumped body
(`None` dumps to null). -/
def tableNameJson (env : Env) : Json :=
  match env.tableName with
  | some t => .str t
  | none => .null

/-- Function `handle_health_check` (index.py:157-202). -/
def handle_health_check (env : Env) : HandlerOut :=
  match check_dynamodb_health env with
  | ((true, latency, _), ops) =>
      ⟨⟨200, jsonHeaders,
          .obj [("status", .str "healthy"),
                ("timestamp", .str env.timestamp),
                ("checks", .obj [("dynamodb", .obj
                  [("status", .str "healthy"),
                   ("latency_ms", .num (pyRound2 latency)),
                   ("table_name", tableNameJson env)])]),
                ("version", .str "1.0.0")]⟩,
        [], ops⟩
  | ((false, _, errMsg), ops) =>
      ⟨⟨503, jsonHeaders,
          .obj [("status", .str "unhealthy"),
                ("timestamp", .str env.timestamp),
                ("checks", .obj [("dynamodb", .obj
                  [("status", .str "unhealthy"),
                   ("error", match errMsg with | some m => .str m | none => .null),
                   ("table_name", tableNameJson env)])]),
                ("version", .str "1.0.0")]⟩,
        [], ops⟩

/-- Routing targets of the dispatcher's `if`/`elif`/`else`. -/
inductive Route where
  | health
  | insert
  | notFound
deriving DecidableEq

/-- The dispatcher's route decision on the extracted
`event.get("httpMethod", "")` and `event.get("path", "/")`. -/
def route (ev : Event) : Route :=
  if ev.httpMethod.getD "" = "GET" ∧ ev.path.getD "/" = "/health" then .health
  else if ev.httpMethod.getD "" = "POST" ∧ ev.path.getD "/" = "/" then .insert
  else .notFound

/-- The 404 fallback response literal (index.py:46-50). -/
def notFoundResponse : Response :=
  ⟨404, jsonHeaders, .obj [("message", .str "Not Found")]⟩

/-- The status-code classification metrics (index.py:69-76): one counter for
2xx / 4xx / 5xx, none for other codes. -/
def statusMetrics (status : Nat) : List Metric :=
  if 200 ≤ status ∧ status < 300 then [⟨"SuccessfulRequests", .count⟩]
  else if 400 ≤ status ∧ status < 500 then [⟨"ClientErrors", .count⟩]
  else if 500 ≤ status then [⟨"ServerErrors", .count⟩]
  else []

/-- The dispatcher's `try` block (index.py:33-78): route, then emit
`RequestLatency` and the status-code classification after the chosen branch
(the 404 branch has already added its own `ClientErrors`). -/
def handlerTry (ev : Event) (env : Env) : HandlerOut :=
  let inner : HandlerOut :=
    match route ev with
    | .health => handle_health_check env
    | .insert => handle_post_request ev env
    | .notFound => ⟨notFoundResponse, [⟨"ClientErrors", .count⟩], []⟩
  ⟨inner.response,
    inner.metrics ++ [⟨"RequestLatency", .milliseconds⟩]
      ++ statusMetrics inner.response.statusCode,
    inner.dbOps⟩

/-- The 500 body built by the dispatcher's catch-all (index.py:90-97). -/
def internalErrorResponse (ctx : LambdaContext) : Response :=
  ⟨500, jsonHeaders,
    .obj [("message", .str "Internal server error"),
          ("correlation_id", .str ctx.aws_request_id)]⟩

/-- The dispatcher's `except Exception` clause (index.py:80-97) applied to an
arbitrary outcome of the `try` block: a normal outcome passes through, any
exception becomes the 500 response after a `ServerErrors` emission.  (The
trace fields of the catch branch record only the clause's own effects.) -/
def handlerCatch (tryOutcome : Except PyExc HandlerOut) (ctx : LambdaContext) : HandlerOut :=
  match tryOutcome with
  | .ok out => out
  | .error _ => ⟨internalErrorResponse ctx, [⟨"ServerErrors", .count⟩], []⟩

/-- Function `handler` (index.py:29-97).  In the embedding every branch of the `try`
block is total, so the normal path always reaches the catch with `.ok`. -/
def handler (ev : Event) (ctx : LambdaContext) (env : Env) : HandlerOut :=
  handlerCatch (.ok (handlerTry ev env)) ctx

/-- A response is well-formed when it carries the JSON content-type header
and one of the status codes the program can produce. -/
def wellFormed (r : Response) : Prop :=
  r.headers = jsonHeaders ∧ r.statusCode ∈ [200, 400, 404, 500, 503]

/-- Is a metric one of the three outcome counters? -/
def isOutcomeCounter (m : Metric) : Bool :=
  m.unit = MUnit.count &&
    (m.name = "SuccessfulRequests" || m.name = "ClientErrors" || m.name = "ServerErrors")

/-- Number of outcome-counter increments in a metric trace. -/
def outcomeCount (ms : List Metric) : Nat :=
  (ms.filter isOutcomeCounter).length

/-- The `id` attributes of the `put_item` calls in a trace. -/
def insertedIds (ops : List DbOp) : List String :=
  ops.filterMap fun op =>
    match op with
    | .putItem _ _ _ id => some id
    | .describeTable _ => none

/-- The required POST fields, in the order the code reads them, that are
absent from a parsed object body. -/
def missingFields (kvs : List (String × Json)) : List String :=
  (["year", "title", "id"].filter fun k => (pyDictGet kvs k).isNone)

/-- Is this Json value a JSON object (a Python dict after `json.loads`)? -/
def Json.isObj : Json → Bool
  | .obj _ => true
  | _ => false

/-! Concrete fixtures used to exercise the handlers on closed inputs. -/

/-- A Lambda context with a fixed request id. -/
def ctx0 : LambdaContext := ⟨"c6af9ac6-7b61-11e6-9a41-93e8deadbeef"⟩

/-- The `str(e)` a `json.loads` failure typically carries. -/
def parseErr : String := "Expecting value: line 1 column 1 (char 0)"

/-- A baseline environment: table configured, both DynamoDB calls succeed,
any body fails to parse. -/
def envBase : Env where
  tableName := some "test_table"
  jsonLoads := fun _ => .error parseErr
  freshUuid := "8c37a0c7-0819-4524-aa3f-90dd7986a3e1"
  putItemResult := .ok ()
  describeTableResult := .ok ()
  describeLatencyMs := 7 / 2
  timestamp := "2026-10-12T00:00:00.000000Z"

/-- The JSON text of an object whose `id` is the empty string. -/
def emptyIdBody : String := "\x7b\"year\": 2012, \"title\": \"t\", \"id\": \"\"\x7d"

/-- Environment whose parser maps `emptyIdBody` to its parsed object. -/
def envEmptyId : Env :=
  { envBase with
    jsonLoads := fun s =>
      if s = emptyIdBody then
        .ok (.obj [("year", .num 2012), ("title", .str "t"), ("id", .str "")])
      else .error parseErr }

/-- A POST / event carrying `emptyIdBody`. -/
def evEmptyId : Event := ⟨some "POST", some "/", some emptyIdBody⟩

/-- The JSON text of the empty object. -/
def emptyObjBody : String := "\x7b\x7d"

/-- Environment whose parser maps `emptyObjBody` to the empty object. -/
def envEmptyObj : Env :=
  { envBase with
    jsonLoads := fun s =>
      if s = emptyObjBody then .ok (.obj []) else .error parseErr }

/-- A POST / event carrying the empty-object body. -/
def evEmptyObj : Event := ⟨some "POST", some "/", some emptyObjBody⟩

/-- Environment whose parser maps the body "5" to the JSON number 5. -/
def envNumBody : Env :=
  { envBase with
    jsonLoads := fun s => if s = "5" then .ok (.num 5) else .error parseErr }

/-- A POST / event whose body is the JSON text "5". -/
def evNumBody : Event := ⟨some "POST", some "/", some "5"⟩

/-- A POST / event with no body at all. -/
def evNoBody : Event := ⟨some "POST", some "/", none⟩

/-- A GET to a path outside the routing table. -/
def evUnrouted : Event := ⟨some "GET", some "/", none⟩

/-- A second baseline environment differing only in the drawn uuid. -/
def envOtherUuid : Env :=
  { envBase with freshUuid := "f81d4fae-7dec-11d0-a765-00a0c91e6bf6" }

/-- The JSON text of an object with `year` and `id` but no `title`. -/
def yearIdBody : String := "\x7b\"year\": 2012, \"id\": \"x\"\x7d"

/-- Environment whose parser maps `yearIdBody` to its parsed object. -/
def envYearId : Env :=
  { envBase with
    jsonLoads := fun s =>
      if s = yearIdBody then .ok (.obj [("year", .num 2012), ("id", .str "x")])
      else .error parseErr }

/-- A POST / event carrying `yearIdBody`. -/
def evYearId : Event := ⟨some "POST", some "/", some yearIdBody⟩

/-! ## Helper lemmas -/

theorem handle_post_request_shape (ev : Event) (env : Env) :
    (handle_post_request ev env).response.headers = jsonHeaders ∧
    (handle_post_request ev env).response.statusCode ∈ [200, 400, 500] ∧
    (handle_post_request ev env).metrics.filter isOutcomeCounter = [] := by
  unfold handle_post_request
  cases hpr : postRecord ev env with
  | error e => cases e <;> simp [postErrorResponse, isOutcomeCounter]
  | ok r =>
      obtain ⟨y, t, i⟩ := r
      unfold write_to_dynamodb
      cases env.putItemResult with
      | ok u => simp [postErrorResponse, isOutcomeCounter]
      | error m => simp [postErrorResponse, isOutcomeCounter]

theorem handle_health_check_shape (env : Env) :
    (handle_health_check env).response.headers = jsonHeaders ∧
    (handle_health_check env).response.statusCode ∈ [200, 503] ∧
    (handle_health_check env).metrics = [] := by
  unfold handle_health_check check_dynamodb_health
  cases env.describeTableResult <;> simp

theorem handle_post_dbOps (ev : Event) (env : Env) :
    (handle_post_request ev env).dbOps =
      (match postRecord ev env with
      | .ok (y, t, i) => [DbOp.putItem env.tableName y t i]
      | .error _ => []) := by
  unfold handle_post_request write_to_dynamodb
  cases postRecord ev env with
  | error e => rfl
  | ok r =>
      obtain ⟨y, t, i⟩ := r
      cases env.putItemResult <;> rfl

theorem outcomeCount_append (a b : List Metric) :
    outcomeCount (a ++ b) = outcomeCount a + outcomeCount b := by
  simp [outcomeCount]

theorem outcomeCount_statusMetrics {s : Nat} (h : s ∈ [200, 400, 404, 500, 503]) :
    outcomeCount (statusMetrics s) = 1 := by
  simp only [List.mem_cons, List.not_mem_nil, or_false] at h
  rcases h with rfl | rfl | rfl | rfl | rfl <;> decide

/-! ## Claim theorems -/

/-- C1: the dispatcher always returns a well-formed response and never
propagates an exception — any raise from the `try` block is converted by the
catch-all into the 500 response carrying the invocation's correlation id. -/
theorem handler_total_and_catch_shape :
    (∀ (ev : Event) (ctx : LambdaContext) (env : Env), wellFormed (handler ev ctx env).response) ∧
    (∀ (e : PyExc) (ctx : LambdaContext),
      handlerCatch (.error e) ctx =
        ⟨⟨500, jsonHeaders,
            .obj [("message", .str "Internal server error"),
                  ("correlation_id", .str ctx.aws_request_id)]⟩,
          [⟨"ServerErrors", .count⟩], []⟩) := by
  refine ⟨?_, fun e ctx => rfl⟩
  intro ev ctx env
  cases hr : route ev with
  | health =>
      have h := handle_health_check_shape env
      simp only [handler, handlerCatch, handlerTry, hr, wellFormed]
      refine ⟨h.1, ?_⟩
      have h2 := h.2.1
      simp only [List.mem_cons, List.not_mem_nil, or_false] at h2 ⊢
      tauto
  | insert =>
      have h := handle_post_request_shape ev env
      simp only [handler, handlerCatch, handlerTry, hr, wellFormed]
      refine ⟨h.1, ?_⟩
      have h2 := h.2.1
      simp only [List.mem_cons, List.not_mem_nil, or_false] at h2 ⊢
      tauto
  | notFound =>
      simp only [handler, handlerCatch, handlerTry, hr, wellFormed]
      exact ⟨rfl, by simp [notFoundResponse]⟩

/-- C2: routing is an exact match on the extracted method and path — GET
/health reaches the health handler, POST / reaches the insert handler, and
any other pair yields the 404 response with no store call. -/
theorem routing_exact_match (ev : Event) (ctx : LambdaContext) (env : Env) :
    (route ev = .health ↔ ev.httpMethod.getD "" = "GET" ∧ ev.path.getD "/" = "/health") ∧
    (route ev = .insert ↔ ev.httpMethod.getD "" = "POST" ∧ ev.path.getD "/" = "/") ∧
    (route ev = .health →
      (handler ev ctx env).response = (handle_health_check env).response) ∧
    (route ev = .insert → (handler ev ctx env).response = (handle_post_request ev env).response) ∧
    (route ev = .notFound →
      (handler ev ctx env).response = notFoundResponse ∧ (handler ev ctx env).dbOps = []) := by
  refine ⟨?_, ?_, ?_, ?_, ?_⟩
  · unfold route
    split_ifs with h1 h2 <;> simp_all
  · unfold route
    split_ifs with h1 h2 <;> simp_all
  · intro hr
    simp only [handler, handlerCatch, handlerTry, hr]
  · intro hr
    simp only [handler, handlerCatch, handlerTry, hr]
  · intro hr
    simp only [handler, handlerCatch, handlerTry, hr]
    constructor <;> trivial

/-- C2 witness: a GET to "/" is unrouted, answered 404 with no store call. -/
theorem routing_exact_match_witness :
    (handler evUnrouted ctx0 envBase).response = notFoundResponse ∧
    (handler evUnrouted ctx0 envBase).dbOps = [] :=
  (routing_exact_match evUnrouted ctx0 envBase).2.2.2.2 (by decide)

/-- C4: every response the system produces, on every route and error path,
carries the Content-Type: application/json header. -/
theorem content_type_always :
    (∀ (ev : Event) (ctx : LambdaContext) (env : Env),
      (handler ev ctx env).response.headers = jsonHeaders) ∧
    (∀ (e : PyExc) (ctx : LambdaContext),
      (handlerCatch (.error e) ctx).response.headers = jsonHeaders) := by
  refine ⟨?_, fun e ctx => rfl⟩
  intro ev ctx env
  cases hr : route ev with
  | health =>
      simp only [handler, handlerCatch, handlerTry, hr]
      exact (handle_health_check_shape env).1
  | insert =>
      simp only [handler, handlerCatch, handlerTry, hr]
      exact (handle_post_request_shape ev env).1
  | notFound =>
      simp only [handler, handlerCatch, handlerTry, hr]
      rfl

/-- C3 counterexample: an unrouted GET / emits the ClientErrors counter twice
(once in the fallback branch, once in the status-code classification), so
the invocation does not emit exactly one outcome counter. -/
theorem fallback_emits_two_client_errors :
    outcomeCount (handler evUnrouted ctx0 envBase).metrics = 2 ∧
    outcomeCount (handler evUnrouted ctx0 envBase).metrics ≠ 1 := by
  constructor <;> decide

/-- C3 amended: a routed invocation and the exception path emit exactly one
outcome counter; the 404 fallback emits two (both ClientErrors). -/
theorem one_outcome_counter_except_fallback (ev : Event) (ctx : LambdaContext) (env : Env) :
    (route ev ≠ .notFound → outcomeCount (handler ev ctx env).metrics = 1) ∧
    (route ev = .notFound → outcomeCount (handler ev ctx env).metrics = 2) ∧
    (∀ (e : PyExc) (ctx' : LambdaContext),
      outcomeCount (handlerCatch (.error e) ctx').metrics = 1) := by
  refine ⟨?_, ?_, fun e ctx' => rfl⟩
  · intro hne
    cases hr : route ev with
    | notFound => exact absurd hr hne
    | health =>
        simp only [handler, handlerCatch, handlerTry, hr]
        have hm : (handle_health_check env).metrics = [] := (handle_health_check_shape env).2.2
        have hs : outcomeCount
            (statusMetrics (handle_health_check env).response.statusCode) = 1 := by
          apply outcomeCount_statusMetrics
          have h2 := (handle_health_check_shape env).2.1
          simp only [List.mem_cons, List.not_mem_nil, or_false] at h2 ⊢
          tauto
        rw [outcomeCount_append, outcomeCount_append, hm, hs]
        decide
    | insert =>
        simp only [handler, handlerCatch, handlerTry, hr]
        have hm : outcomeCount (handle_post_request ev env).metrics = 0 := by
          unfold outcomeCount
          rw [(handle_post_request_shape ev env).2.2]
          rfl
        have hs : outcomeCount
            (statusMetrics (handle_post_request ev env).response.statusCode) = 1 := by
          apply outcomeCount_statusMetrics
          have h2 := (handle_post_request_shape ev env).2.1
          simp only [List.mem_cons, List.not_mem_nil, or_false] at h2 ⊢
          tauto
        rw [outcomeCount_append, outcomeCount_append, hm, hs]
        decide
  · intro hr
    simp only [handler, handlerCatch, handlerTry, hr]
    decide

/-- C3 amended witness: a routed POST / emits exactly one outcome counter. -/
theorem one_outcome_counter_witness :
    outcomeCount (handler evNoBody ctx0 envBase).metrics = 1 :=
  (one_outcome_counter_except_fallback evNoBody ctx0 envBase).1 (by decide)

/-- C5 counterexample: a POST body whose id is the empty string still leads
to a put_item call whose id attribute is empty — emptiness is not checked
before the write. -/
theorem put_with_empty_id :
    DbOp.putItem (some "test_table") "2012" "t" "" ∈
      (handle_post_request evEmptyId envEmptyId).dbOps := by
  decide

/-- C5 amended: whenever a put_item call is issued, its id attribute came
either from the fresh uuid (absent/empty body) or from an `id` key present
in the parsed object body; presence is guaranteed, non-emptiness is not. -/
theorem put_id_provenance (ev : Event) (env : Env) (y t i : String)
    (h : DbOp.putItem env.tableName y t i ∈ (handle_post_request ev env).dbOps) :
    (truthyBody ev = none ∧ i = env.freshUuid) ∨
    (∃ s kvs v, truthyBody ev = some s ∧ env.jsonLoads s = .ok (.obj kvs) ∧
      pyDictGet kvs "id" = some v ∧ i = pyStr v) := by
  rw [handle_post_dbOps] at h
  cases hpr : postRecord ev env with
  | error e => rw [hpr] at h; simp at h
  | ok r =>
      obtain ⟨y', t', i'⟩ := r
      rw [hpr] at h
      simp only [List.mem_singleton] at h
      injection h with _ _ _ hi
      subst hi
      simp only [postRecord] at hpr
      cases hb : truthyBody ev with
      | none =>
          rw [hb] at hpr
          injection hpr with hpr'
          injection hpr' with h1 h23
          injection h23 with h2 h3
          exact Or.inl ⟨rfl, h3.symm⟩
      | some s =>
          rw [hb] at hpr
          dsimp only at hpr
          cases hp : env.jsonLoads s with
          | error m => rw [hp] at hpr; exact absurd hpr (by simp)
          | ok item =>
              rw [hp] at hpr
              dsimp only at hpr
              cases item with
              | obj kvs =>
                  cases hy : pyDictGet kvs "year" with
                  | none => simp [pySubscript, hy] at hpr
                  | some vy =>
                      cases ht : pyDictGet kvs "title" with
                      | none => simp [pySubscript, hy, ht] at hpr
                      | some vt =>
                          cases hid : pyDictGet kvs "id" with
                          | none => simp [pySubscript, hy, ht, hid] at hpr
                          | some vi =>
                              simp only [pySubscript, hy, ht, hid] at hpr
                              injection hpr with hpr'
                              injection hpr' with h1 h23
                              injection h23 with h2 h3
                              exact Or.inr ⟨s, kvs, vi, rfl, hp, hid, h3.symm⟩
              | null => simp [pySubscript] at hpr
              | bool b => simp [pySubscript] at hpr
              | num q => simp [pySubscript] at hpr
              | str sv => simp [pySubscript] at hpr
              | arr xs => simp [pySubscript] at hpr

/-- C5 amended witness: the empty-id put traces back to the body's id key. -/
theorem put_id_provenance_witness :
    (truthyBody evEmptyId = none ∧ "" = envEmptyId.freshUuid) ∨
    (∃ s kvs v, truthyBody evEmptyId = some s ∧ envEmptyId.jsonLoads s = .ok (.obj kvs) ∧
      pyDictGet kvs "id" = some v ∧ "" = pyStr v) :=
  put_id_provenance evEmptyId envEmptyId "2012" "t" "" (by decide)

theorem missing_msg (f : String) :
    "Missing required field: " ++ PyExc.toStr (.keyError f) =
      "Missing required field: '" ++ f ++ "'" := by
  show "Missing required field: " ++ ("'" ++ f ++ "'") = _
  rw [← String.append_assoc, ← String.append_assoc]
  rfl

theorem postRecord_first_missing (ev : Event) (env : Env) (s : String)
    (kvs : List (String × Json)) (f : String)
    (hb : truthyBody ev = some s) (hp : env.jsonLoads s = .ok (.obj kvs))
    (hm : (missingFields kvs).head? = some f) :
    postRecord ev env = .error (.keyError f) := by
  cases hy : pyDictGet kvs "year" with
  | none =>
      have hf : "year" = f := by simpa [missingFields, hy] using hm
      subst hf
      simp [postRecord, hb, hp, pySubscript, hy]
  | some vy =>
      cases ht : pyDictGet kvs "title" with
      | none =>
          have hf : "title" = f := by simpa [missingFields, hy, ht] using hm
          subst hf
          simp [postRecord, hb, hp, pySubscript, hy, ht]
      | some vt =>
          cases hid : pyDictGet kvs "id" with
          | none =>
              have hf : "id" = f := by simpa [missingFields, hy, ht, hid] using hm
              subst hf
              simp [postRecord, hb, hp, pySubscript, hy, ht, hid]
          | some vi =>
              exfalso
              simp [missingFields, hy, ht, hid] at hm

/-- C6 counterexample: on the empty-object body, the 400 message wraps the
missing key in single quotes (Python's `str(KeyError)`), so the body is not
exactly the claimed one with the bare field name. -/
theorem missing_field_message_is_quoted :
    (handle_post_request evEmptyObj envEmptyObj).response.statusCode = 400 ∧
    (handle_post_request evEmptyObj envEmptyObj).response.body =
      .obj [("message", .str "Missing required field: 'year'")] ∧
    (handle_post_request evEmptyObj envEmptyObj).response.body ≠
      .obj [("message", .str "Missing required field: year")] := by
  refine ⟨rfl, rfl, ?_⟩
  intro h
  rw [show (handle_post_request evEmptyObj envEmptyObj).response.body =
      Json.obj [("message", .str "Missing required field: 'year'")] from rfl] at h
  injection h with hfields
  injection hfields with hhead htail
  have hsnd := congrArg Prod.snd hhead
  injection hsnd with hs
  exact absurd hs (by decide)

/-- C6 amended: a POST body parsing to an object with a required field
missing yields 400 with message `Missing required field: '<field name>'`
(the name of the first missing field, in single quotes), and no write is
attempted. -/
theorem missing_field_response (ev : Event) (env : Env) (s : String)
    (kvs : List (String × Json)) (f : String)
    (hb : truthyBody ev = some s)
    (hp : env.jsonLoads s = .ok (.obj kvs))
    (hm : (missingFields kvs).head? = some f) :
    (handle_post_request ev env).response =
      ⟨400, jsonHeaders, .obj [("message", .str ("Missing required field: '" ++ f ++ "'"))]⟩ ∧
    (handle_post_request ev env).dbOps = [] := by
  have hpr := postRecord_first_missing ev env s kvs f hb hp hm
  simp only [handle_post_request, hpr]
  refine ⟨?_, by trivial⟩
  show postErrorResponse (.keyError f) = _
  have hk : postErrorResponse (.keyError f) =
      ⟨400, jsonHeaders,
        .obj [("message", .str ("Missing required field: " ++ PyExc.toStr (.keyError f)))]⟩ := rfl
  rw [hk, missing_msg]

/-- C6 amended witness: a body with year and id but no title gets 400 naming
'title' and no write. -/
theorem missing_field_response_witness :
    (handle_post_request evYearId envYearId).response =
      ⟨400, jsonHeaders,
        .obj [("message", .str ("Missing required field: '" ++ "title" ++ "'"))]⟩ ∧
    (handle_post_request evYearId envYearId).dbOps = [] :=
  missing_field_response evYearId envYearId yearIdBody
    [("year", .num 2012), ("id", .str "x")] "title" rfl rfl rfl

theorem empty_body_put (ev : Event) (env : Env) (hb : truthyBody ev = none) :
    (handle_post_request ev env).dbOps =
      [DbOp.putItem env.tableName "2012" "The Amazing Spider-Man 2" env.freshUuid] := by
  rw [handle_post_dbOps]
  have hpr : postRecord ev env = .ok ("2012", "The Amazing Spider-Man 2", env.freshUuid) := by
    simp [postRecord, hb]
  rw [hpr]

/-- C7: an absent or empty body is not an error — the default record with
year "2012", the fixed title and the freshly drawn uuid as id is written,
a successful write answers 200, and calls drawing distinct uuids write
distinct ids. -/
theorem default_record_on_empty_body (ev : Event) (env : Env) (hb : truthyBody ev = none) :
    (handle_post_request ev env).dbOps =
      [DbOp.putItem env.tableName "2012" "The Amazing Spider-Man 2" env.freshUuid] ∧
    insertedIds (handle_post_request ev env).dbOps = [env.freshUuid] ∧
    (env.putItemResult = .ok () →
      (handle_post_request ev env).response =
        ⟨200, jsonHeaders, .obj [("message", .str "Successfully inserted data!")]⟩) ∧
    (∀ (ev₂ : Event) (env₂ : Env), truthyBody ev₂ = none →
      env₂.freshUuid ≠ env.freshUuid →
      insertedIds (handle_post_request ev₂ env₂).dbOps ≠
        insertedIds (handle_post_request ev env).dbOps) := by
  refine ⟨empty_body_put ev env hb, ?_, ?_, ?_⟩
  · rw [empty_body_put ev env hb]; rfl
  · intro hput
    have hpr : postRecord ev env = .ok ("2012", "The Amazing Spider-Man 2", env.freshUuid) := by
      simp [postRecord, hb]
    simp only [handle_post_request, hpr, write_to_dynamodb, hput]
  · intro ev₂ env₂ hb₂ hne
    rw [empty_body_put ev env hb, empty_body_put ev₂ env₂ hb₂]
    simp [insertedIds, hne]

/-- C7 witness: a POST / with no body writes the default record and, the
write succeeding, answers 200. -/
theorem default_record_on_empty_body_witness :
    (handle_post_request evNoBody envBase).dbOps =
      [DbOp.putItem envBase.tableName "2012" "The Amazing Spider-Man 2" envBase.freshUuid] ∧
    (handle_post_request evNoBody envBase).response =
      ⟨200, jsonHeaders, .obj [("message", .str "Successfully inserted data!")]⟩ :=
  ⟨(default_record_on_empty_body evNoBody envBase rfl).1,
   (default_record_on_empty_body evNoBody envBase rfl).2.2.1 rfl⟩

/-- C8: the health handler never raises — a successful metadata probe yields
the 200 healthy report with the rounded latency and version "1.0.0", a
failing probe yields the 503 unhealthy report carrying the stringified
exception. -/
theorem health_report_total (env : Env) :
    (env.describeTableResult = .ok () →
      handle_health_check env =
        ⟨⟨200, jsonHeaders,
            .obj [("status", .str "healthy"),
                  ("timestamp", .str env.timestamp),
                  ("checks", .obj [("dynamodb", .obj
                    [("status", .str "healthy"),
                     ("latency_ms", .num (pyRound2 env.describeLatencyMs)),
                     ("table_name", tableNameJson env)])]),
                  ("version", .str "1.0.0")]⟩,
          [], [DbOp.describeTable env.tableName]⟩) ∧
    (∀ msg, env.describeTableResult = .error msg →
      handle_health_check env =
        ⟨⟨503, jsonHeaders,
            .obj [("status", .str "unhealthy"),
                  ("timestamp", .str env.timestamp),
                  ("checks", .obj [("dynamodb", .obj
                    [("status", .str "unhealthy"),
                     ("error", .str msg),
                     ("table_name", tableNameJson env)])]),
                  ("version", .str "1.0.0")]⟩,
          [], [DbOp.describeTable env.tableName]⟩) := by
  constructor
  · intro h
    simp only [handle_health_check, check_dynamodb_health, h]
  · intro msg h
    simp only [handle_health_check, check_dynamodb_health, h]

/-- C8 witness: with the probe succeeding, the healthy 200 report. -/
theorem health_report_total_witness :
    handle_health_check envBase =
      ⟨⟨200, jsonHeaders,
          .obj [("status", .str "healthy"),
                ("timestamp", .str envBase.timestamp),
                ("checks", .obj [("dynamodb", .obj
                  [("status", .str "healthy"),
                   ("latency_ms", .num (pyRound2 envBase.describeLatencyMs)),
                   ("table_name", tableNameJson envBase)])]),
                ("version", .str "1.0.0")]⟩,
        [], [DbOp.describeTable envBase.tableName]⟩ :=
  (health_report_total envBase).1 rfl

/-- C9: a body that is valid JSON but not an object makes the field reads
raise `TypeError`, caught by the generic handler: 500 with "Database
operation failed" and no write attempted — not a 400 validation error. -/
theorem non_object_body_500 (ev : Event) (env : Env) (s : String) (v : Json)
    (hb : truthyBody ev = some s) (hp : env.jsonLoads s = .ok v) (hv : v.isObj = false) :
    (handle_post_request ev env).response =
      ⟨500, jsonHeaders, .obj [("message", .str "Database operation failed")]⟩ ∧
    (handle_post_request ev env).dbOps = [] := by
  cases v with
  | obj kvs => simp [Json.isObj] at hv
  | null =>
      have hpr : postRecord ev env = .error (.typeError "object is not subscriptable") := by
        simp [postRecord, hb, hp, pySubscript]
      simp only [handle_post_request, hpr]
      constructor <;> trivial
  | bool b =>
      have hpr : postRecord ev env = .error (.typeError "object is not subscriptable") := by
        simp [postRecord, hb, hp, pySubscript]
      simp only [handle_post_request, hpr]
      constructor <;> trivial
  | num q =>
      have hpr : postRecord ev env = .error (.typeError "object is not subscriptable") := by
        simp [postRecord, hb, hp, pySubscript]
      simp only [handle_post_request, hpr]
      constructor <;> trivial
  | str s2 =>
      have hpr : postRecord ev env = .error (.typeError "string indices must be integers") := by
        simp [postRecord, hb, hp, pySubscript]
      simp only [handle_post_request, hpr]
      constructor <;> trivial
  | arr xs =>
      have hpr : postRecord ev env = .error (.typeError "list indices must be integers") := by
        simp [postRecord, hb, hp, pySubscript]
      simp only [handle_post_request, hpr]
      constructor <;> trivial

/-- C9 witness: the body "5" gets the 500 database-failure response with no
write. -/
theorem non_object_body_500_witness :
    (handle_post_request evNumBody envNumBody).response =
      ⟨500, jsonHeaders, .obj [("message", .str "Database operation failed")]⟩ ∧
    (handle_post_request evNumBody envNumBody).dbOps = [] :=
  non_object_body_500 evNumBody envNumBody "5" (.num 5) rfl rfl rfl

/-- C10: with two or more required fields missing, the 400 response names
exactly one field — the first missing one in the fixed order year, title,
id. -/
theorem first_missing_field_named (ev : Event) (env : Env) (s : String)
    (kvs : List (String × Json)) (f : String)
    (hb : truthyBody ev = some s)
    (hp : env.jsonLoads s = .ok (.obj kvs))
    (_hmany : 2 ≤ (missingFields kvs).length)
    (hf : (missingFields kvs).head? = some f) :
    (handle_post_request ev env).response.statusCode = 400 ∧
    (handle_post_request ev env).response.body =
      .obj [("message", .str ("Missing required field: '" ++ f ++ "'"))] := by
  have hpr := postRecord_first_missing ev env s kvs f hb hp hf
  simp only [handle_post_request, hpr]
  refine ⟨by trivial, ?_⟩
  show (postErrorResponse (.keyError f)).body = _
  have hk : (postErrorResponse (.keyError f)).body =
      .obj [("message", .str ("Missing required field: " ++ PyExc.toStr (.keyError f)))] := rfl
  rw [hk, missing_msg]

/-- C10 witness: the empty object misses all three fields; the one named is
year. -/
theorem first_missing_field_named_witness :
    (handle_post_request evEmptyObj envEmptyObj).response.statusCode = 400 ∧
    (handle_post_request evEmptyObj envEmptyObj).response.body =
      .obj [("message", .str ("Missing required field: '" ++ "year" ++ "'"))] :=
  first_missing_field_named evEmptyObj envEmptyObj emptyObjBody [] "year"
    rfl rfl (by decide) rfl

end ApigwHandler
